import Mathlib

/-!
# Verification of the bpaf custom-path rewriting module

This development embeds `src/bpaf_derive/src/custom_path.rs` — the symbolic
path prefix rewriting engine of the `bpaf_derive` crate — as executable Lean
definitions and proves (or refutes) the specified properties about it.

Embedding conventions:
* `syn::Ident` is a `String`; `syn::PathArguments` is an `Option String`,
  where `none` corresponds to `PathArguments::None` (i.e. `arguments.is_none()`
  holds exactly when the Lean field `arguments` is `none`).
* `Option<PathSep>` (the `leading_colon` field) is a `Bool`.
* Rust `Result<T, syn::Error>` and Rust panics are both embedded as
  `Except PartError T`; the constructor `PartError.synError` stands for a
  `syn::Error` value returned to the caller, while `PartError.panicked`
  stands for a `panic!`/`todo!` abort.  The two are kept distinct so that
  statements can tell a returned error from a crash.
* Iterators are embedded by functions that produce the sequence of their
  yielded items (or the last yielded item, where the Rust code calls
  `.last()`), threading the iterator state explicitly.
-/

set_option autoImplicit false

namespace CustomPath

/-- One `syn::PathSegment`: an identifier together with its (possibly absent)
path arguments.  `arguments = none` embeds `PathArguments::None`. -/
structure PathSegment where
  ident : String
  arguments : Option String
  deriving DecidableEq, Repr

/-- A `syn::Path`: optional leading colon (root marker) and a sequence of
`PathSegment`s. -/
structure SynPath where
  leading_colon : Bool
  segments : List PathSegment
  deriving DecidableEq, Repr

/-- `SimplePath` from the source: optional leading colon and a sequence of
bare identifiers (`Vec<Ident>`). -/
structure SimplePath where
  leading_colon : Bool
  segments : List String
  deriving DecidableEq, Repr

/-- Failure values of the embedded module.  `synError` is a `syn::Error`
returned through `Result`; `panicked` is a `panic!`/`todo!` abort. -/
inductive PartError where
  | synError (msg : String)
  | panicked (msg : String)
  deriving DecidableEq, Repr

/-- `TryFromIterator<PathSegment> for Vec<Ident>::try_from_iter`: convert the
segments of a path into bare identifiers, failing with a `syn::Error` on the
first segment that carries path arguments (items in angle brackets). -/
def try_from_iter_segments : List PathSegment → Except PartError (List String)
  | [] => .ok []
  | s :: rest =>
    if s.arguments.isNone then
      match try_from_iter_segments rest with
      | .ok ids => .ok (s.ident :: ids)
      | .error e => .error e
    else
      .error (.synError "bpaf crate path should not contain path arguments (items in angle brackets <..>).")

/-- `TryFrom<syn::Path> for SimplePath::try_from`: keep the leading colon and
convert the segments via `try_from_iter`. -/
def SimplePath.try_from (p : SynPath) : Except PartError SimplePath :=
  match try_from_iter_segments p.segments with
  | .ok segs => .ok ⟨p.leading_colon, segs⟩
  | .error e => .error e

/-- The rewriting engine: a validated query path and a validated replacement
path (`BpafPathReplacer`). -/
structure BpafPathReplacer where
  query : SimplePath
  replacement : SimplePath
  deriving DecidableEq, Repr

/-- `BpafPathReplacer::new`: validate the query, then the replacement, and
propagate the first conversion error. -/
def BpafPathReplacer.new (query replacement : SynPath) :
    Except PartError BpafPathReplacer :=
  match SimplePath.try_from query with
  | .error e => .error e
  | .ok q =>
    match SimplePath.try_from replacement with
    | .error e => .error e
    | .ok r => .ok ⟨q, r⟩

/-- `PathPart::ident for PathSegment`: expose the comparison identifier of a
segment.  The source `panic!`s (does not return a `syn::Error`) when the
segment carries path arguments. -/
def PathSegment.part_ident (s : PathSegment) : Except PartError String :=
  if s.arguments.isNone then
    .ok s.ident
  else
    .error (.panicked "Crate paths cannot contain angle brackets")

/-- `PathPart::from_ident for PathSegment`: fabricate a segment from a bare
identifier with `arguments: Default::default()` (i.e. `PathArguments::None`). -/
def PathSegment.from_ident (id : String) : PathSegment :=
  ⟨id, none⟩

/-- `MatchStatus` from the source.  `midway` embeds the Rust variant
`Partial { current }` (an initial run of query parts has matched, ending at
`current`); `complete` embeds `Complete { tail }` (all query parts consumed,
`tail` is the cloned state of the target iterator). -/
inductive MatchStatus where
  | midway (current : PathSegment)
  | complete (tail : List PathSegment)
  deriving DecidableEq, Repr

/-- The last status yielded by repeatedly calling `PathMatchingIter::next`
(the source's `match_iter().last()` on the leading-colons-match branch).
The three parameters are the iterator state: the unconsumed query identifiers,
the unconsumed target segments, and `self.status`, which is also the last
item yielded so far (every call returns exactly `self.status`).

Faithful to the source's `next` (lines 282-306):
* `(Some(query_part), Some(target_part))`: compare `query_part` with
  `target_part.ident()` (which panics on a segment with arguments); on
  equality the status becomes `Partial { current: target_part }` and
  iteration continues, otherwise `next` returns `None` and iteration stops,
  leaving the previously yielded status as the `.last()` value.
* `(None, Some(target))`: a previous `Partial` status becomes
  `Complete { tail }` where `tail` is the target iterator cloned *after*
  `target` was consumed; a previous `Complete` status is kept unchanged; no
  previous status hits the source's `todo!()` and panics.
* `(Some(_), None)` and `(None, None)`: `next` returns `None`, iteration
  stops, the previously yielded status is the `.last()` value. -/
def PathMatchingIter.last_status :
    List String → List PathSegment → Option MatchStatus →
      Except PartError (Option MatchStatus)
  | q :: qs, t :: ts, status =>
    match t.part_ident with
    | .error e => .error e
    | .ok tid =>
      if q = tid then
        PathMatchingIter.last_status qs ts (some (.midway t))
      else
        .ok status
  | [], _t :: ts, status =>
    match status with
    | some (.midway _) => PathMatchingIter.last_status [] ts (some (.complete ts))
    | some (.complete tl) => PathMatchingIter.last_status [] ts (some (.complete tl))
    | none => .error (.panicked "not yet implemented")
  | _, [], status => .ok status

/-- `Matcher` from the source: borrowed query, replacement and target. -/
structure Matcher where
  query : SimplePath
  replacement : SimplePath
  target : SynPath
  deriving DecidableEq, Repr

/-- The last status of `Matcher::match_iter`: when the leading colons of
query and target agree, run the part-matching iterator; otherwise the
iterator is `LeadingColonsMismatch`, which yields nothing, so its last
status is `none`. -/
def Matcher.match_iter_last (m : Matcher) : Except PartError (Option MatchStatus) :=
  if m.query.leading_colon = m.target.leading_colon then
    PathMatchingIter.last_status m.query.segments m.target.segments none
  else
    .ok none

/-- Modelled from the spec: the reconstruction of a flat reference path,
which in the source is the `todo!()` inside `Matcher::maybe_replace`'s
`Complete` branch.  Per spec §4.3, the new segment sequence is the
Replacement's identifiers in order (fabricated via `from_ident`, hence with
no arguments) followed by the remainder verbatim, and the root marker is the
Replacement's. -/
def reconstruct_path (replacement : SimplePath) (tail : List PathSegment) : SynPath :=
  ⟨replacement.leading_colon, replacement.segments.map PathSegment.from_ident ++ tail⟩

/-- `Matcher::maybe_replace`: take the last match status; a `Partial` status
or no status at all yields no replacement, a `Complete { tail }` status
yields the reconstructed path (the reconstruction itself is `todo!()` in the
source and is supplied by `reconstruct_path`, modelled from the spec). -/
def Matcher.maybe_replace (m : Matcher) : Except PartError (Option SynPath) :=
  match m.match_iter_last with
  | .error e => .error e
  | .ok none => .ok none
  | .ok (some (.midway _)) => .ok none
  | .ok (some (.complete tail)) => .ok (some (reconstruct_path m.replacement tail))

/-- Modelled from the spec: `BpafPathReplacer::replace_if_match` is `todo!()`
in the source; per spec §2 and §4.4 the visitor applies the Matcher (built
from the engine's query and replacement and the visited node) and then the
Reconstructor, i.e. exactly `Matcher::maybe_replace`. -/
def BpafPathReplacer.replace_if_match (r : BpafPathReplacer) (target : SynPath) :
    Except PartError (Option SynPath) :=
  Matcher.maybe_replace ⟨r.query, r.replacement, target⟩

/-- `VisitMut::visit_path_mut` on one node: if `replace_if_match` produces a
replacement, the node is overwritten with it; otherwise the node is left
untouched.  (The subsequent recursion into children is outside one node's
rewrite and is not modelled here.) -/
def BpafPathReplacer.visit_path (r : BpafPathReplacer) (p : SynPath) :
    Except PartError SynPath :=
  match r.replace_if_match p with
  | .error e => .error e
  | .ok (some replaced) => .ok replaced
  | .ok none => .ok p

/-- `syn::UseTree`: the import tree of a `use` item.  `path` embeds
`UseTree::Path` (one segment continuing into a nested tree), `name` embeds
`UseTree::Name` (terminal leaf), `rename` embeds `UseTree::Rename`
(terminal leaf with a local alias), `glob` embeds `UseTree::Glob`, and
`group` embeds `UseTree::Group` (terminal branching). -/
inductive UseTree where
  | path (ident : String) (tree : UseTree)
  | name (ident : String)
  | rename (ident : String) (local_name : String)
  | glob
  | group (trees : List UseTree)

/-- The full sequence of items yielded by `TreeIter::next` starting from a
given tree, faithful to the source (lines 347-365): the current tree node is
yielded, then
* for `UseTree::Path` the iteration continues into the nested tree,
* for `UseTree::Name`, `UseTree::Rename` and `UseTree::Glob` the successor
  is `None`, so iteration stops after yielding the terminal node itself,
* for `UseTree::Group` the successor computation is the source's `todo!()`,
  which panics before the current node is returned. -/
def TreeIter.items : UseTree → Except PartError (List UseTree)
  | .path id sub =>
    match TreeIter.items sub with
    | .ok rest => .ok (.path id sub :: rest)
    | .error e => .error e
  | .name id => .ok [.name id]
  | .rename id loc => .ok [.rename id loc]
  | .glob => .ok [.glob]
  | .group _ => .error (.panicked "not yet implemented")

/-- A concrete segment carrying path arguments (embedding `Vec<T>`), used to
exercise the failure paths of the segment abstraction. -/
def seg_with_args : PathSegment :=
  ⟨"Vec", some "T"⟩

/-- Whether a part-identifier lookup produced a `syn::Error` returned to the
caller (as opposed to succeeding or panicking). -/
def returns_syn_error : Except PartError String → Bool
  | .error (.synError _) => true
  | _ => false

end CustomPath

namespace CustomPath

/-! ## Helper lemmas -/

theorem try_from_iter_segments_ok (l : List PathSegment)
    (h : ∀ s ∈ l, s.arguments.isNone = true) :
    try_from_iter_segments l = .ok (l.map PathSegment.ident) := by
  induction l with
  | nil => rfl
  | cons s rest ih =>
    have hs : s.arguments.isNone = true := h s (by simp)
    have hr := ih (fun x hx => h x (by simp [hx]))
    unfold try_from_iter_segments
    rw [if_pos hs, hr]
    rfl

theorem try_from_iter_segments_error (l : List PathSegment)
    (h : ∃ s ∈ l, s.arguments.isNone = false) :
    try_from_iter_segments l =
      .error (.synError "bpaf crate path should not contain path arguments (items in angle brackets <..>).") := by
  induction l with
  | nil => simp at h
  | cons s rest ih =>
    by_cases hs : s.arguments.isNone = true
    · obtain ⟨x, hx, hxb⟩ := h
      rcases List.mem_cons.mp hx with hxs | hxr
      · rw [hxs] at hxb
        rw [hs] at hxb
        cases hxb
      · have hr := ih ⟨x, hxr, hxb⟩
        unfold try_from_iter_segments
        rw [if_pos hs, hr]
    · unfold try_from_iter_segments
      rw [if_neg hs]

theorem pm_stops (ts : List PathSegment) (qs : List String) (s0 : Option MatchStatus)
    (hplain : ∀ s ∈ ts, s.arguments.isNone = true)
    (hne : (ts.map PathSegment.ident).take qs.length ≠ qs) :
    PathMatchingIter.last_status qs ts s0 = .ok s0 ∨
      ∃ p, PathMatchingIter.last_status qs ts s0 = .ok (some (MatchStatus.midway p)) := by
  induction ts generalizing qs s0 with
  | nil =>
    cases qs with
    | nil => exact absurd rfl hne
    | cons q qs => left; rfl
  | cons t ts ih =>
    cases qs with
    | nil => exact absurd rfl hne
    | cons q qs =>
      have ht : t.arguments.isNone = true := hplain t (by simp)
      have hid : t.part_ident = .ok t.ident := by
        unfold PathSegment.part_ident
        rw [if_pos ht]
      simp only [PathMatchingIter.last_status, hid]
      by_cases hq : q = t.ident
      · have hne2 : (ts.map PathSegment.ident).take qs.length ≠ qs := by
          intro hcontra
          apply hne
          simp [List.take, hq, hcontra]
        rw [if_pos hq]
        rcases ih qs (some (.midway t)) (fun x hx => hplain x (by simp [hx])) hne2 with
          h | ⟨p, h⟩
        · exact Or.inr ⟨t, h⟩
        · exact Or.inr ⟨p, h⟩
      · rw [if_neg hq]
        left
        rfl

/-! ## Claim theorems -/

/-- C1: the claim states that a target whose first `n` parts equal the query
matches with remainder = the target's parts from index `n` onward, and that
a target of exactly `n` parts yields `Matched` with an empty remainder.  The
code refutes both: (a) for query `a` against target `a` (equal lengths) the
last status is `Partial`, so `maybe_replace` yields no match at all; (b) for
query `a` against target `a::b::c` the captured tail is `[c]` — the segment
at index `n` (`b`) was consumed while detecting query exhaustion and is
dropped from the remainder. -/
theorem claim1_code_eval :
    Matcher.maybe_replace
        ⟨⟨false, ["a"]⟩, ⟨false, ["x"]⟩, ⟨false, [PathSegment.from_ident "a"]⟩⟩ =
      .ok none ∧
    Matcher.match_iter_last
        ⟨⟨false, ["a"]⟩, ⟨false, ["x"]⟩,
         ⟨false, [PathSegment.from_ident "a", PathSegment.from_ident "b",
                  PathSegment.from_ident "c"]⟩⟩ =
      .ok (some (.complete [PathSegment.from_ident "c"])) :=
  ⟨rfl, rfl⟩

/-- C2: whenever the root-marker (leading-colon) flags of query and target
disagree, the match iterator yields no status and `maybe_replace` produces no
replacement (`NoMatch`), regardless of the segment content of either path. -/
theorem claim2_root_marker_mismatch (m : Matcher)
    (h : m.query.leading_colon ≠ m.target.leading_colon) :
    m.match_iter_last = .ok none ∧ m.maybe_replace = .ok none := by
  have h1 : m.match_iter_last = .ok none := by
    unfold Matcher.match_iter_last
    rw [if_neg h]
  refine ⟨h1, ?_⟩
  unfold Matcher.maybe_replace
  rw [h1]

/-- Witness for C2 at a concrete input: an absolute query (`::a`) against a
relative target (`a`). -/
theorem claim2_witness :
    ((⟨true, ["a"]⟩ : SimplePath).leading_colon ≠
        (⟨false, [PathSegment.from_ident "a"]⟩ : SynPath).leading_colon) ∧
    (Matcher.match_iter_last
        ⟨⟨true, ["a"]⟩, ⟨false, ["x"]⟩, ⟨false, [PathSegment.from_ident "a"]⟩⟩ =
      .ok none ∧
     Matcher.maybe_replace
        ⟨⟨true, ["a"]⟩, ⟨false, ["x"]⟩, ⟨false, [PathSegment.from_ident "a"]⟩⟩ =
      .ok none) :=
  ⟨by decide,
   claim2_root_marker_mismatch
     ⟨⟨true, ["a"]⟩, ⟨false, ["x"]⟩, ⟨false, [PathSegment.from_ident "a"]⟩⟩
     (by decide)⟩

/-- C4: the claim states that a zero-length query always yields `Matched`
with the entire target as remainder.  The code refutes it: against an empty
target the last status is `none`, so `maybe_replace` yields no replacement,
and against any nonempty target the very first iterator step takes the
`(None, Some(_))` branch with no prior status and hits the source's
`todo!()` panic. -/
theorem claim4_code_eval :
    Matcher.maybe_replace ⟨⟨false, []⟩, ⟨false, ["x"]⟩, ⟨false, []⟩⟩ = .ok none ∧
    PathMatchingIter.last_status [] [PathSegment.from_ident "a"] none =
      .error (.panicked "not yet implemented") :=
  ⟨rfl, rfl⟩

/-- C7 counterexample: the claim states that a target part with generic
arguments makes the segment abstraction fail with an `InvalidPathShape`
error returned to the caller.  At the concrete segment `Vec<T>` the
abstraction does not return a `syn::Error` at all: it panics (the source's
`panic!("Crate paths cannot contain angle brackets")`). -/
theorem claim7_counterexample :
    returns_syn_error seg_with_args.part_ident = false ∧
    seg_with_args.part_ident =
      .error (.panicked "Crate paths cannot contain angle brackets") :=
  ⟨rfl, rfl⟩

/-- C7 amended: for every target segment carrying generic arguments the
segment abstraction fails with a panic (rather than silently ignoring the
structure, but also rather than returning an `InvalidPathShape` error). -/
theorem claim7_amended (s : PathSegment) (h : s.arguments.isNone = false) :
    s.part_ident = .error (.panicked "Crate paths cannot contain angle brackets") := by
  unfold PathSegment.part_ident
  rw [h]
  rfl

/-- Witness for C7 at the concrete segment `Vec<T>`. -/
theorem claim7_witness :
    (⟨"Vec", some "T"⟩ : PathSegment).arguments.isNone = false ∧
    (⟨"Vec", some "T"⟩ : PathSegment).part_ident =
      .error (.panicked "Crate paths cannot contain angle brackets") :=
  ⟨rfl, claim7_amended ⟨"Vec", some "T"⟩ rfl⟩

/-- C8: the claim states that the import-tree part iterator yields no
further matchable parts once a terminal variant is reached, the terminal
node being part of the remainder.  The code refutes it: (a) reaching a
`Group` node hits the source's `todo!()` and panics instead of stopping;
(b) the terminal `Name` node of `a::b` is itself yielded as the final
matchable part. -/
theorem claim8_code_eval :
    TreeIter.items
        (.path "a" (.group [.name "Parser", .path "helpers" (.name "util")])) =
      .error (.panicked "not yet implemented") ∧
    TreeIter.items (.path "a" (.name "b")) =
      .ok [.path "a" (.name "b"), .name "b"] :=
  ⟨rfl, rfl⟩

/-- C9: the claim states that rewriting with Query = Replacement yields a
tree textually identical to the input.  The code (with the reconstruction
modelled from the spec) refutes it: with Query = Replacement = `a`, the
flat path `a::b` is rewritten to `a` — the segment `b` at the query
boundary is consumed by the matching loop and dropped from the captured
remainder, so the output differs from the input. -/
theorem claim9_code_eval :
    BpafPathReplacer.visit_path ⟨⟨false, ["a"]⟩, ⟨false, ["a"]⟩⟩
        ⟨false, [PathSegment.from_ident "a", PathSegment.from_ident "b"]⟩ =
      .ok ⟨false, [PathSegment.from_ident "a"]⟩ ∧
    (⟨false, [PathSegment.from_ident "a"]⟩ : SynPath) ≠
      ⟨false, [PathSegment.from_ident "a", PathSegment.from_ident "b"]⟩ :=
  ⟨rfl, by decide⟩

/-- C10: every segment fabricated by `from_ident` carries empty path
arguments, and consequently the replacement-prefix block of a reconstructed
path (its first `|Replacement|` segments) consists exactly of the
`from_ident` images of the replacement identifiers — plain segments with no
angle-bracketed structure. -/
theorem claim10_from_ident_plain :
    (∀ id : String, (PathSegment.from_ident id).arguments = none) ∧
    (∀ (repl : SimplePath) (tail : List PathSegment),
      (reconstruct_path repl tail).segments.take repl.segments.length =
        repl.segments.map PathSegment.from_ident) := by
  refine ⟨fun id => rfl, fun repl tail => ?_⟩
  simp [reconstruct_path]

/-- C3: if any of the target's first `n` parts differs from the
corresponding query identifier, or the target has fewer than `n` parts
(together: the first `n` target identifiers, truncated to the target's
length, are not the query), then the rewrite attempt reports no match and
the visitor leaves the target node unmodified. -/
theorem claim3_non_matching_rejected (r : BpafPathReplacer) (t : SynPath)
    (hplain : ∀ s ∈ t.segments, s.arguments.isNone = true)
    (hne : (t.segments.map PathSegment.ident).take r.query.segments.length ≠
      r.query.segments) :
    r.replace_if_match t = .ok none ∧ r.visit_path t = .ok t := by
  have hm : Matcher.maybe_replace ⟨r.query, r.replacement, t⟩ = .ok none := by
    unfold Matcher.maybe_replace
    by_cases hc : r.query.leading_colon = t.leading_colon
    · have hmi : Matcher.match_iter_last ⟨r.query, r.replacement, t⟩ =
          PathMatchingIter.last_status r.query.segments t.segments none := by
        simp only [Matcher.match_iter_last]
        rw [if_pos hc]
      rw [hmi]
      rcases pm_stops t.segments r.query.segments none hplain hne with h | ⟨p, h⟩
      · rw [h]
      · rw [h]
    · have hmi : Matcher.match_iter_last ⟨r.query, r.replacement, t⟩ = .ok none := by
        simp only [Matcher.match_iter_last]
        rw [if_neg hc]
      rw [hmi]
  refine ⟨hm, ?_⟩
  unfold BpafPathReplacer.visit_path BpafPathReplacer.replace_if_match
  rw [hm]

/-- Witness for C3 at a concrete input: query `a` against target `b`. -/
theorem claim3_witness :
    (∀ s ∈ (⟨false, [PathSegment.from_ident "b"]⟩ : SynPath).segments,
        s.arguments.isNone = true) ∧
    (((⟨false, [PathSegment.from_ident "b"]⟩ : SynPath).segments.map
          PathSegment.ident).take
        (⟨⟨false, ["a"]⟩, ⟨false, ["x"]⟩⟩ : BpafPathReplacer).query.segments.length ≠
      (⟨⟨false, ["a"]⟩, ⟨false, ["x"]⟩⟩ : BpafPathReplacer).query.segments) ∧
    (BpafPathReplacer.replace_if_match ⟨⟨false, ["a"]⟩, ⟨false, ["x"]⟩⟩
        ⟨false, [PathSegment.from_ident "b"]⟩ = .ok none ∧
     BpafPathReplacer.visit_path ⟨⟨false, ["a"]⟩, ⟨false, ["x"]⟩⟩
        ⟨false, [PathSegment.from_ident "b"]⟩ =
      .ok ⟨false, [PathSegment.from_ident "b"]⟩) :=
  ⟨by decide, by decide,
   claim3_non_matching_rejected ⟨⟨false, ["a"]⟩, ⟨false, ["x"]⟩⟩
     ⟨false, [PathSegment.from_ident "b"]⟩ (by decide) (by decide)⟩

/-- C5: whenever the rewrite of a flat reference path succeeds, the produced
node carries the Replacement's root marker, and its segment sequence is the
Replacement's identifiers (as plain segments) followed verbatim by the tail
captured by the matcher, so its identifier sequence is the Replacement's
identifiers followed by the remainder's identifiers, in order.  (A bare
`syn::Path` has no fields besides the root marker and the segments, so there
are no further fields to preserve.) -/
theorem claim5_reconstruction (r : BpafPathReplacer) (t p : SynPath)
    (h : r.replace_if_match t = .ok (some p)) :
    p.leading_colon = r.replacement.leading_colon ∧
    ∃ tail,
      Matcher.match_iter_last ⟨r.query, r.replacement, t⟩ =
        .ok (some (.complete tail)) ∧
      p.segments = r.replacement.segments.map PathSegment.from_ident ++ tail ∧
      p.segments.map PathSegment.ident =
        r.replacement.segments ++ tail.map PathSegment.ident := by
  unfold BpafPathReplacer.replace_if_match Matcher.maybe_replace at h
  cases hml : Matcher.match_iter_last ⟨r.query, r.replacement, t⟩ with
  | error e =>
    rw [hml] at h
    cases h
  | ok st =>
    rw [hml] at h
    match st with
    | none => simp at h
    | some (.midway c) => simp at h
    | some (.complete tail) =>
      simp only [Except.ok.injEq, Option.some.injEq] at h
      subst h
      refine ⟨rfl, tail, rfl, rfl, ?_⟩
      simp [reconstruct_path, PathSegment.from_ident, Function.comp_def]

/-- Witness for C5 at a concrete input: query `a`, replacement `x`, target
`a::b::c` (the matcher's captured tail there is `[c]`). -/
theorem claim5_witness :
    BpafPathReplacer.replace_if_match ⟨⟨false, ["a"]⟩, ⟨false, ["x"]⟩⟩
        ⟨false, [PathSegment.from_ident "a", PathSegment.from_ident "b",
                 PathSegment.from_ident "c"]⟩ =
      .ok (some ⟨false, [PathSegment.from_ident "x", PathSegment.from_ident "c"]⟩) ∧
    ((⟨false, [PathSegment.from_ident "x", PathSegment.from_ident "c"]⟩ :
          SynPath).leading_colon =
        (⟨⟨false, ["a"]⟩, ⟨false, ["x"]⟩⟩ : BpafPathReplacer).replacement.leading_colon ∧
     ∃ tail,
       Matcher.match_iter_last
           ⟨⟨false, ["a"]⟩, ⟨false, ["x"]⟩,
            ⟨false, [PathSegment.from_ident "a", PathSegment.from_ident "b",
                     PathSegment.from_ident "c"]⟩⟩ =
         .ok (some (.complete tail)) ∧
       (⟨false, [PathSegment.from_ident "x", PathSegment.from_ident "c"]⟩ :
           SynPath).segments =
         (⟨⟨false, ["a"]⟩, ⟨false, ["x"]⟩⟩ :
             BpafPathReplacer).replacement.segments.map PathSegment.from_ident ++
           tail ∧
       (⟨false, [PathSegment.from_ident "x", PathSegment.from_ident "c"]⟩ :
             SynPath).segments.map PathSegment.ident =
         (⟨⟨false, ["a"]⟩, ⟨false, ["x"]⟩⟩ : BpafPathReplacer).replacement.segments ++
           tail.map PathSegment.ident) :=
  ⟨rfl,
   claim5_reconstruction ⟨⟨false, ["a"]⟩, ⟨false, ["x"]⟩⟩
     ⟨false, [PathSegment.from_ident "a", PathSegment.from_ident "b",
              PathSegment.from_ident "c"]⟩
     ⟨false, [PathSegment.from_ident "x", PathSegment.from_ident "c"]⟩ rfl⟩

/-- C6: engine construction fails with the `InvalidPathShape` conversion
error (a returned `syn::Error`) as soon as the query or the replacement
contains a segment with path arguments, and succeeds — preserving both
paths' leading colons and segment identifiers in order — when neither
does. -/
theorem claim6_construction (query replacement : SynPath) :
    ((∃ s ∈ query.segments ++ replacement.segments, s.arguments.isNone = false) →
      BpafPathReplacer.new query replacement =
        .error (.synError "bpaf crate path should not contain path arguments (items in angle brackets <..>).")) ∧
    ((∀ s ∈ query.segments ++ replacement.segments, s.arguments.isNone = true) →
      BpafPathReplacer.new query replacement =
        .ok ⟨⟨query.leading_colon, query.segments.map PathSegment.ident⟩,
             ⟨replacement.leading_colon,
              replacement.segments.map PathSegment.ident⟩⟩) := by
  constructor
  · intro h
    by_cases hq : ∃ s ∈ query.segments, s.arguments.isNone = false
    · have h1 := try_from_iter_segments_error query.segments hq
      unfold BpafPathReplacer.new SimplePath.try_from
      rw [h1]
    · have hq2 : ∀ s ∈ query.segments, s.arguments.isNone = true := by
        intro s hs
        by_contra hb
        simp only [Bool.not_eq_true] at hb
        exact hq ⟨s, hs, hb⟩
      have hr : ∃ s ∈ replacement.segments, s.arguments.isNone = false := by
        obtain ⟨s, hs, hb⟩ := h
        rcases List.mem_append.mp hs with h1 | h2
        · rw [hq2 s h1] at hb
          cases hb
        · exact ⟨s, h2, hb⟩
      have h1 := try_from_iter_segments_ok query.segments hq2
      have h2 := try_from_iter_segments_error replacement.segments hr
      unfold BpafPathReplacer.new SimplePath.try_from
      rw [h1, h2]
  · intro h
    have hq : ∀ s ∈ query.segments, s.arguments.isNone = true :=
      fun s hs => h s (List.mem_append.mpr (Or.inl hs))
    have hr : ∀ s ∈ replacement.segments, s.arguments.isNone = true :=
      fun s hs => h s (List.mem_append.mpr (Or.inr hs))
    unfold BpafPathReplacer.new SimplePath.try_from
    rw [try_from_iter_segments_ok query.segments hq,
        try_from_iter_segments_ok replacement.segments hr]

/-- Witness for C6: construction from `Vec<T>` (a segment with arguments)
fails with the conversion error, and construction from `::a` / `x` succeeds
with the identifiers preserved. -/
theorem claim6_witness :
    (∃ s ∈ (⟨false, [⟨"Vec", some "T"⟩]⟩ : SynPath).segments ++
        (⟨false, [PathSegment.from_ident "x"]⟩ : SynPath).segments,
      s.arguments.isNone = false) ∧
    BpafPathReplacer.new ⟨false, [⟨"Vec", some "T"⟩]⟩
        ⟨false, [PathSegment.from_ident "x"]⟩ =
      .error (.synError "bpaf crate path should not contain path arguments (items in angle brackets <..>).") ∧
    (∀ s ∈ (⟨true, [PathSegment.from_ident "a"]⟩ : SynPath).segments ++
        (⟨false, [PathSegment.from_ident "x"]⟩ : SynPath).segments,
      s.arguments.isNone = true) ∧
    BpafPathReplacer.new ⟨true, [PathSegment.from_ident "a"]⟩
        ⟨false, [PathSegment.from_ident "x"]⟩ =
      .ok ⟨⟨true, ["a"]⟩, ⟨false, ["x"]⟩⟩ :=
  ⟨by decide,
   (claim6_construction ⟨false, [⟨"Vec", some "T"⟩]⟩
       ⟨false, [PathSegment.from_ident "x"]⟩).1 (by decide),
   by decide,
   (claim6_construction ⟨true, [PathSegment.from_ident "a"]⟩
       ⟨false, [PathSegment.from_ident "x"]⟩).2 (by decide)⟩

end CustomPath
